import Mathlib

/-!
Verification of the air-quality dashboard component (Svelte single-file
component). The definitions below are a shallow embedding of the script
section of the component: JavaScript numbers are modelled as rationals,
mutable component state as explicit record passing, and the network layer
as explicit response values handed to the functions that consume them.
-/

namespace AirQualityMonitor

/-! ### convertOpenWeatherMapAQI

JS source:
  function convertOpenWeatherMapAQI(owmAQI) {
    const conversion = { 1: 20, 2: 60, 3: 120, 4: 180, 5: 250 };
    return conversion[owmAQI] || owmAQI;
  }
The property lookup yields the table entry for the keys 1..5 and
undefined otherwise; `x || y` falls back to `y` when `x` is falsy
(undefined or 0). -/

def aqiConversionTable (q : ℚ) : Option ℚ :=
  if q = 1 then some 20
  else if q = 2 then some 60
  else if q = 3 then some 120
  else if q = 4 then some 180
  else if q = 5 then some 250
  else none

def jsOrNum (v : Option ℚ) (fallback : ℚ) : ℚ :=
  match v with
  | none => fallback
  | some x => if x = 0 then fallback else x

def convertOpenWeatherMapAQI (owmAQI : ℚ) : ℚ :=
  jsOrNum (aqiConversionTable owmAQI) owmAQI

/-! ### getAQIColor / getAQIDescription

JS source: both first test `typeof aqi === 'number' && aqi >= 1 && aqi <= 5`
(treating the value as a provider 1-5 category, decided by a switch with
strict integer equality), and only otherwise fall through to the regular
0-300+ scale. In the embedding every input is a number, so the typeof
test is always true. -/

def getAQIColor (aqi : ℚ) : String :=
  if 1 ≤ aqi ∧ aqi ≤ 5 then
    if aqi = 1 then "#22c55e"
    else if aqi = 2 then "#eab308"
    else if aqi = 3 then "#f97316"
    else if aqi = 4 then "#ef4444"
    else if aqi = 5 then "#8F3F97"
    else "#6b7280"
  else
    if aqi ≤ 50 then "#22c55e"
    else if aqi ≤ 100 then "#eab308"
    else if aqi ≤ 150 then "#f97316"
    else if aqi ≤ 200 then "#ef4444"
    else if aqi ≤ 300 then "#8F3F97"
    else "#6b7280"

def getAQIDescription (aqi : ℚ) : String :=
  if 1 ≤ aqi ∧ aqi ≤ 5 then
    if aqi = 1 then "Good"
    else if aqi = 2 then "Fair"
    else if aqi = 3 then "Moderate"
    else if aqi = 4 then "Poor"
    else if aqi = 5 then "Very Poor"
    else "Unknown"
  else
    if aqi ≤ 50 then "Good"
    else if aqi ≤ 100 then "Moderate"
    else if aqi ≤ 150 then "Unhealthy for Sensitive Groups"
    else if aqi ≤ 200 then "Unhealthy"
    else if aqi ≤ 300 then "Very Unhealthy"
    else "Hazardous"

/-- Spec-side band index for the edges 0-50, 51-100, 101-150, 151-200,
201-300, >300 used to state the banding claim. -/
def specBandOf (v : ℚ) : Fin 6 :=
  if v ≤ 50 then 0
  else if v ≤ 100 then 1
  else if v ≤ 150 then 2
  else if v ≤ 200 then 3
  else if v ≤ 300 then 4
  else 5

/-- Spec-side label per band. -/
def specBandLabel : Fin 6 → String
  | 0 => "Good"
  | 1 => "Moderate"
  | 2 => "Unhealthy for Sensitive Groups"
  | 3 => "Unhealthy"
  | 4 => "Very Unhealthy"
  | 5 => "Hazardous"

/-- Spec-side color per band. -/
def specBandColor : Fin 6 → String
  | 0 => "#22c55e"
  | 1 => "#eab308"
  | 2 => "#f97316"
  | 3 => "#ef4444"
  | 4 => "#8F3F97"
  | 5 => "#6b7280"

/-! ### Location resolution

JS source: getCachedPosition reads localStorage and returns the cached
coordinates only when `Date.now() - timestamp < CACHE_EXPIRY_TIME`,
otherwise null. getUserLocation first tries the cache; if absent it runs
geolocation (high accuracy then low accuracy); on geolocation error it
falls back to getCachedPosition() again, and otherwise leaves the
module-level latitude/longitude (initialised to New York City) in place. -/

structure CachedPosition where
  lat : ℚ
  lon : ℚ
  timestamp : ℚ
deriving DecidableEq

def CACHE_EXPIRY_TIME : ℚ := 30 * 60 * 1000

def getCachedPosition (cache : Option CachedPosition) (now : ℚ) :
    Option (ℚ × ℚ) :=
  match cache with
  | none => none
  | some c => if now - c.timestamp < CACHE_EXPIRY_TIME
      then some (c.lat, c.lon) else none

/-- Initial values of the module-level `latitude` / `longitude` variables:
`let latitude = 40.7128; let longitude = -74.0060;` (New York City). -/
def defaultCoord : ℚ × ℚ := (40.7128, -74.0060)

/-- Outcome of the geolocation attempt inside getUserLocation:
the capability may be missing, the whole attempt (high accuracy, low
accuracy fallback and the 8 second timeout) may fail, or it may produce
a position. -/
inductive GeoOutcome where
  | unavailable
  | failed
  | success (lat lon : ℚ)
deriving DecidableEq

/-- One run of getUserLocation, as a function of the current coordinate
state, the cache contents, the current time and the geolocation outcome;
returns the resolved coordinate pair. -/
def getUserLocation (coord : ℚ × ℚ) (cache : Option CachedPosition)
    (now : ℚ) (geo : GeoOutcome) : ℚ × ℚ :=
  match getCachedPosition cache now with
  | some p => p
  | none =>
    match geo with
    | GeoOutcome.unavailable => coord
    | GeoOutcome.success lat lon => (lat, lon)
    | GeoOutcome.failed =>
      match getCachedPosition cache now with
      | some p => p
      | none => coord

/-! ### Pollutants and getDominantPollutant -/

structure Pollutants where
  PM2_5 : ℚ
  PM10 : ℚ
  NO2 : ℚ
  SO2 : ℚ
  O3 : ℚ
  CO : ℚ
deriving DecidableEq

inductive PollutantKey where
  | PM2_5
  | PM10
  | NO2
  | SO2
  | O3
  | CO
deriving DecidableEq

/-- WHO guidelines table from getDominantPollutant. -/
def guideline : PollutantKey → ℚ
  | PollutantKey.PM2_5 => 15
  | PollutantKey.PM10 => 45
  | PollutantKey.NO2 => 25
  | PollutantKey.SO2 => 40
  | PollutantKey.O3 => 100
  | PollutantKey.CO => 4000

def pollutantValue (p : Pollutants) : PollutantKey → ℚ
  | PollutantKey.PM2_5 => p.PM2_5
  | PollutantKey.PM10 => p.PM10
  | PollutantKey.NO2 => p.NO2
  | PollutantKey.SO2 => p.SO2
  | PollutantKey.O3 => p.O3
  | PollutantKey.CO => p.CO

/-- `Object.entries(pollutants)` enumerates the keys in insertion order,
which is the order the pollutants object is built in fetchAirQuality. -/
def pollutantEntries : List PollutantKey :=
  [PollutantKey.PM2_5, PollutantKey.PM10, PollutantKey.NO2,
   PollutantKey.SO2, PollutantKey.O3, PollutantKey.CO]

def ratioOf (p : Pollutants) (k : PollutantKey) : ℚ :=
  pollutantValue p k / guideline k

/-- Position of a key in the enumeration order. -/
def keyPos : PollutantKey → Nat
  | PollutantKey.PM2_5 => 0
  | PollutantKey.PM10 => 1
  | PollutantKey.NO2 => 2
  | PollutantKey.SO2 => 3
  | PollutantKey.O3 => 4
  | PollutantKey.CO => 5

/-- JS source: starts with `maxRatio = 0`, `dominant = null` and replaces
the pair whenever `ratio > maxRatio` (strict). -/
def getDominantPollutant (pollutants : Option Pollutants) :
    Option PollutantKey :=
  match pollutants with
  | none => none
  | some p =>
    (pollutantEntries.foldl
      (fun acc k =>
        if acc.1 < ratioOf p k then (ratioOf p k, some k) else acc)
      ((0 : ℚ), (none : Option PollutantKey))).2

/-! ### fetchAirQuality

JS source: fires the current and forecast requests, throws (caught by the
single catch, which only sets the error banner) when either response is
not ok or the current payload has no first list entry, and otherwise
rewrites currentAQI / pollutants / forecastData / lastUpdateTime. -/

structure AirEntry where
  dt : ℚ
  aqi : ℚ
  pm2_5 : ℚ
  pm10 : ℚ
  no2 : ℚ
  so2 : ℚ
  o3 : ℚ
  co : ℚ
deriving DecidableEq

structure AirResponse where
  ok : Bool
  list : List AirEntry
deriving DecidableEq

structure AppState where
  currentAQI : ℚ
  pollutants : Pollutants
  forecastData : List AirEntry
  lastUpdateTime : Option ℚ
  error : Option String
deriving DecidableEq

def fetchFailMsg : String :=
  "Failed to fetch air quality data. Please try again later."

def fetchAirQuality (st : AppState) (currentRes forecastRes : AirResponse) :
    AppState :=
  if currentRes.ok = false then { st with error := some fetchFailMsg }
  else if forecastRes.ok = false then { st with error := some fetchFailMsg }
  else
    match currentRes.list with
    | [] => { st with error := some fetchFailMsg }
    | current :: _ =>
      let st1 := { st with
        currentAQI := convertOpenWeatherMapAQI current.aqi,
        pollutants := ⟨current.pm2_5, current.pm10, current.no2,
                       current.so2, current.o3, current.co⟩ }
      let st2 := if 0 < forecastRes.list.length
        then { st1 with forecastData := forecastRes.list.take 24 }
        else st1
      { st2 with lastUpdateTime := some (current.dt * 1000) }

/-- The condition under which fetchAirQuality throws into its catch
block: current response not ok, forecast response not ok, or the current
payload has no first list entry. -/
def fetchFails (currentRes forecastRes : AirResponse) : Prop :=
  currentRes.ok = false ∨ forecastRes.ok = false ∨ currentRes.list = []

instance (currentRes forecastRes : AirResponse) :
    Decidable (fetchFails currentRes forecastRes) := by
  unfold fetchFails; infer_instance

/-! ### searchLocation

JS source: early-returns on a whitespace-only query; clears the results
and returns on a short non-numeric query; otherwise picks the zip
endpoint for /^\d{5}$/ queries and the free-text endpoint (limit 10)
otherwise; on 404 or an empty array result, if the query is not a zip
candidate and has length >= 3, retries once with the last character
sliced off and client-side filters the relaxed results by
case-insensitive substring match on the name. -/

/-- The whitespace characters stripped by String.prototype.trim
(ASCII subset; the claims only exercise plain spaces). -/
def jsWhitespaceChar (c : Char) : Bool :=
  c == ' ' || c == '\t' || c == '\n' || c == '\r' ||
  c == Char.ofNat 11 || c == Char.ofNat 12

def jsTrim (s : String) : String :=
  String.mk
    (((s.toList.dropWhile jsWhitespaceChar).reverse.dropWhile
        jsWhitespaceChar).reverse)

/-- The test /^\d+$/. -/
def isAllDigits (s : String) : Bool :=
  !s.toList.isEmpty && s.toList.all Char.isDigit

/-- The test /^\d{5}$/. -/
def isFiveDigitZip (s : String) : Bool :=
  s.length == 5 && s.toList.all Char.isDigit

structure GeoItem where
  name : String
  state : String
  country : String
  lat : ℚ
  lon : ℚ
deriving DecidableEq

/-- Parsed body of a geocoding response: the free-text endpoint returns
an array, the zip endpoint a single object. -/
inductive GeoPayload where
  | arr (items : List GeoItem)
  | obj (item : GeoItem)
deriving DecidableEq

structure GeoResponse where
  status : Nat
  payload : GeoPayload
deriving DecidableEq

/-- A network request issued by searchLocation. -/
inductive SearchRequest where
  | zip (q : String)
  | direct (q : String) (lim : Nat)
deriving DecidableEq

structure SearchResult where
  name : String
  state : String
  country : String
  lat : ℚ
  lon : ℚ
deriving DecidableEq

structure SearchState where
  searchResults : List SearchResult
  searchError : String
deriving DecidableEq

def noLocationsMsg : String :=
  "No locations found. Try a different search term."

def jsToLower (s : String) : String :=
  String.mk (s.toList.map Char.toLower)

/-- The nonempty suffixes of a list together with the empty suffix,
in order of decreasing length; executable helper for substring search. -/
def charSuffixes : List Char → List (List Char)
  | [] => [[]]
  | c :: cs => (c :: cs) :: charSuffixes cs

/-- JS `hay.includes(needle)`: substring containment, decided by
scanning every suffix for needle as a prefix. -/
def jsIncludes (hay needle : String) : Bool :=
  (charSuffixes hay.toList).any (fun t => needle.toList.isPrefixOf t)

/-- The client-side filter applied to the relaxed results:
`item.name.toLowerCase().includes(query.toLowerCase())`. -/
def nameMatches (item : GeoItem) (query : String) : Bool :=
  jsIncludes (jsToLower item.name) (jsToLower query)

def payloadIsArray : GeoPayload → Bool
  | GeoPayload.arr _ => true
  | GeoPayload.obj _ => false

/-- The items of an array payload; a non-array payload has no `.length`
property, so every length test on it behaves as on an empty list. -/
def payloadItems : GeoPayload → List GeoItem
  | GeoPayload.arr l => l
  | GeoPayload.obj _ => []

/-- `response.status === 404 || (Array.isArray(data) && data.length === 0)`. -/
def noResultsResp (r : GeoResponse) : Bool :=
  r.status == 404 ||
    (payloadIsArray r.payload && (payloadItems r.payload).length == 0)

def itemToResult (item : GeoItem) : SearchResult :=
  ⟨item.name, item.state, item.country, item.lat, item.lon⟩

/-- The zip branch maps the single object with `state: ''`. -/
def zipToResult (item : GeoItem) : SearchResult :=
  ⟨item.name, "", item.country, item.lat, item.lon⟩

/-- JS `query.slice(0, -1)`. -/
def jsDropLastChar (s : String) : String := String.mk s.toList.dropLast

/-- One run of searchLocation, as a function of the query, the primary
response, the relaxed (lenient) response consumed only when the retry
fires, and the current search state. Returns the new search state and
the list of requests issued, in order. -/
def searchLocation (query : String) (primary lenient : GeoResponse)
    (st : SearchState) : SearchState × List SearchRequest :=
  if jsTrim query = "" then (st, [])
  else if query.length < 3 ∧ isAllDigits query = false then
    ({ st with searchResults := [] }, [])
  else
    let st1 := { st with searchError := "" }
    let req := if isFiveDigitZip query then SearchRequest.zip query
               else SearchRequest.direct query 10
    if noResultsResp primary then
      if isFiveDigitZip query = false ∧ 3 ≤ query.length then
        let reqs := [req, SearchRequest.direct (jsDropLastChar query) 10]
        let lenientItems := payloadItems lenient.payload
        if 0 < lenientItems.length then
          let filtered := lenientItems.filter (fun item => nameMatches item query)
          if 0 < filtered.length then
            ({ st1 with searchResults := filtered.map itemToResult }, reqs)
          else
            ({ st1 with searchResults := [], searchError := noLocationsMsg },
             reqs)
        else
          ({ st1 with searchResults := [], searchError := noLocationsMsg },
           reqs)
      else
        ({ st1 with searchResults := [], searchError := noLocationsMsg },
         [req])
    else
      match primary.payload with
      | GeoPayload.obj item =>
        ({ st1 with searchResults := [zipToResult item] }, [req])
      | GeoPayload.arr items =>
        ({ st1 with searchResults := items.map itemToResult }, [req])

/-! ## Theorems -/

/-- C2: for every provider category c in {1,2,3,4,5},
convertOpenWeatherMapAQI(c) returns 20, 60, 120, 180, 250 respectively,
and for every numeric input outside {1,2,3,4,5} it returns the input
unchanged (identity fallback). -/
theorem convertOpenWeatherMapAQI_table_and_identity :
    convertOpenWeatherMapAQI 1 = 20 ∧ convertOpenWeatherMapAQI 2 = 60 ∧
    convertOpenWeatherMapAQI 3 = 120 ∧ convertOpenWeatherMapAQI 4 = 180 ∧
    convertOpenWeatherMapAQI 5 = 250 ∧
    ∀ q : ℚ, q ≠ 1 → q ≠ 2 → q ≠ 3 → q ≠ 4 → q ≠ 5 →
      convertOpenWeatherMapAQI q = q := by
  refine ⟨by decide, by decide, by decide, by decide, by decide, ?_⟩
  intro q h1 h2 h3 h4 h5
  simp [convertOpenWeatherMapAQI, aqiConversionTable, jsOrNum,
    h1, h2, h3, h4, h5]

/-- Witness for C2: input 7 is outside the table and maps to itself. -/
theorem convertOpenWeatherMapAQI_table_and_identity_witness :
    convertOpenWeatherMapAQI 7 = 7 :=
  convertOpenWeatherMapAQI_table_and_identity.2.2.2.2.2 7
    (by decide) (by decide) (by decide) (by decide) (by decide)

/-- Counterexample to C1 as stated for every numeric index: v = 3 lies in
the 0-50 band, but because 3 is also a provider 1-5 category the code
returns the category color/label (orange / "Moderate"), not
green / "Good". -/
theorem aqiBands_every_numeric_counterexample :
    ((0 : ℚ) ≤ 3 ∧ (3 : ℚ) ≤ 50) ∧
    getAQIDescription 3 = "Moderate" ∧ getAQIDescription 3 ≠ "Good" ∧
    getAQIColor 3 = "#f97316" ∧ getAQIColor 3 ≠ "#22c55e" := by decide

/-- C1 (amended): for every index value outside the provider-category
range [1,5], getAQIColor and getAQIDescription band consistently at the
edges 0-50, 51-100, 101-150, 151-200, 201-300, >300 with the pairing
green/Good, yellow/Moderate, orange/Unhealthy for Sensitive Groups,
red/Unhealthy, purple/Very Unhealthy, gray/Hazardous. -/
theorem aqiBands_consistent_outside_category_range (v : ℚ)
    (h : ¬(1 ≤ v ∧ v ≤ 5)) :
    getAQIColor v = specBandColor (specBandOf v) ∧
    getAQIDescription v = specBandLabel (specBandOf v) := by
  constructor
  · unfold getAQIColor specBandOf
    rw [if_neg h]
    split_ifs <;> rfl
  · unfold getAQIDescription specBandOf
    rw [if_neg h]
    split_ifs <;> rfl

/-- Witness for C1: v=50 gives "Good"/green, v=51 gives
"Moderate"/yellow, v=500 gives "Hazardous"/gray. -/
theorem aqiBands_consistent_witness :
    (getAQIColor 50 = "#22c55e" ∧ getAQIDescription 50 = "Good") ∧
    (getAQIColor 51 = "#eab308" ∧ getAQIDescription 51 = "Moderate") ∧
    (getAQIColor 500 = "#6b7280" ∧ getAQIDescription 500 = "Hazardous") := by
  have h50 := aqiBands_consistent_outside_category_range 50 (by decide)
  have h51 := aqiBands_consistent_outside_category_range 51 (by decide)
  have h500 := aqiBands_consistent_outside_category_range 500 (by decide)
  exact ⟨⟨h50.1.trans (by decide), h50.2.trans (by decide)⟩,
         ⟨h51.1.trans (by decide), h51.2.trans (by decide)⟩,
         ⟨h500.1.trans (by decide), h500.2.trans (by decide)⟩⟩

/-- C9: every non-integer value strictly between 1 and 5 passes the 1-5
category range test but matches no switch case, so both functions fall
to the switch default: gray #6b7280 and "Unknown". -/
theorem aqi_noninteger_category_fallback (v : ℚ)
    (h1 : 1 < v) (h2 : v < 5) (h3 : v.den ≠ 1) :
    getAQIColor v = "#6b7280" ∧ getAQIDescription v = "Unknown" := by
  have e1 : v ≠ 1 := by rintro rfl; exact h3 rfl
  have e2 : v ≠ 2 := by rintro rfl; exact h3 rfl
  have e3 : v ≠ 3 := by rintro rfl; exact h3 rfl
  have e4 : v ≠ 4 := by rintro rfl; exact h3 rfl
  have e5 : v ≠ 5 := by rintro rfl; exact h3 rfl
  have hr : 1 ≤ v ∧ v ≤ 5 := ⟨le_of_lt h1, le_of_lt h2⟩
  constructor
  · simp [getAQIColor, hr, e1, e2, e3, e4, e5]
  · simp [getAQIDescription, hr, e1, e2, e3, e4, e5]

/-- Witness for C9 at v = 5/2 (= 2.5). -/
theorem aqi_noninteger_category_fallback_witness :
    getAQIColor (Rat.mk' 5 2 (by decide) (by decide)) = "#6b7280" ∧
    getAQIDescription (Rat.mk' 5 2 (by decide) (by decide)) = "Unknown" :=
  aqi_noninteger_category_fallback _ (by decide) (by decide) (by decide)

/-- Counterexample to C3 as stated: with a cached position (1, 2) whose
timestamp is 30 minutes + 1 ms old, a failed geolocation attempt does
not fall back to the cached coordinate; the expired cache reads as
absent and the default New York City coordinate is used. -/
theorem getUserLocation_expired_cache_counterexample :
    getCachedPosition (some ⟨1, 2, 0⟩) 1800001 = none ∧
    getUserLocation defaultCoord (some ⟨1, 2, 0⟩) 1800001 GeoOutcome.failed
      = defaultCoord ∧
    defaultCoord ≠ (1, 2) := by
  refine ⟨?_, ?_, ?_⟩
  · norm_num [getCachedPosition, CACHE_EXPIRY_TIME]
  · norm_num [getUserLocation, getCachedPosition, CACHE_EXPIRY_TIME]
  · norm_num [defaultCoord, Prod.ext_iff]

/-- C3 (amended): when the geolocation attempt fails entirely, the
resolver falls back to the cached coordinate only when a cached value
exists and is within the 30-minute freshness window; with an absent or
expired cache the hardcoded default (40.7128, -74.0060) remains. -/
theorem getUserLocation_failed_fresh_cache_or_default
    (cache : Option CachedPosition) (now : ℚ) :
    getUserLocation defaultCoord cache now GeoOutcome.failed
      = (getCachedPosition cache now).getD defaultCoord := by
  unfold getUserLocation
  cases h : getCachedPosition cache now <;> simp

/-- C4: fetchAirQuality fails as a whole operation, setting the
user-visible error message and leaving the previously displayed current
index, pollutant readings and forecast in place, exactly when the
current response is not ok, the forecast response is not ok, or the
current payload lacks its first list entry; on the success path the
error banner is left untouched. The model consumes exactly one response
per endpoint, so no retry occurs within the call. -/
theorem fetchAirQuality_error_iff (st : AppState)
    (currentRes forecastRes : AirResponse) :
    (fetchFails currentRes forecastRes →
      fetchAirQuality st currentRes forecastRes
        = { st with error := some fetchFailMsg }) ∧
    (¬ fetchFails currentRes forecastRes →
      (fetchAirQuality st currentRes forecastRes).error = st.error) := by
  constructor
  · intro h
    rcases h with h | h | h
    · simp [fetchAirQuality, h]
    · cases hc : currentRes.ok
      · simp [fetchAirQuality, hc]
      · simp [fetchAirQuality, hc, h]
    · cases hc : currentRes.ok
      · simp [fetchAirQuality, hc]
      · cases hf : forecastRes.ok
        · simp [fetchAirQuality, hc, hf]
        · simp [fetchAirQuality, hc, hf, h]
  · intro h
    simp only [fetchFails, not_or] at h
    obtain ⟨h1, h2, h3⟩ := h
    simp only [Bool.not_eq_false] at h1 h2
    rcases hl : currentRes.list with _ | ⟨e, rest⟩
    · exact absurd hl h3
    · by_cases hp : 0 < forecastRes.list.length
      · simp [fetchAirQuality, h1, h2, hl, hp]
      · simp [fetchAirQuality, h1, h2, hl, hp]

/-- Witness for C4: a failing current response sets the banner and keeps
the rest of the state; a successful pair leaves the banner unchanged. -/
theorem fetchAirQuality_error_iff_witness :
    (fetchAirQuality ⟨0, ⟨0, 0, 0, 0, 0, 0⟩, [], none, none⟩
        ⟨false, []⟩ ⟨true, []⟩
      = { (⟨0, ⟨0, 0, 0, 0, 0, 0⟩, [], none, none⟩ : AppState) with
            error := some fetchFailMsg }) ∧
    (fetchAirQuality ⟨0, ⟨0, 0, 0, 0, 0, 0⟩, [], none, none⟩
        ⟨true, [⟨0, 2, 1, 1, 1, 1, 1, 1⟩]⟩
        ⟨true, [⟨0, 2, 1, 1, 1, 1, 1, 1⟩]⟩).error = none :=
  ⟨(fetchAirQuality_error_iff _ _ _).1 (Or.inl rfl),
   ((fetchAirQuality_error_iff _ _ _).2 (by simp [fetchFails])).trans rfl⟩

/-- Helper for C5: the stored forecast never grows beyond 24 entries. -/
theorem fetchAirQuality_forecast_le_24 (st : AppState)
    (currentRes forecastRes : AirResponse)
    (hst : st.forecastData.length ≤ 24) :
    (fetchAirQuality st currentRes forecastRes).forecastData.length ≤ 24 := by
  cases hc : currentRes.ok
  · simp [fetchAirQuality, hc, hst]
  · cases hf : forecastRes.ok
    · simp [fetchAirQuality, hc, hf, hst]
    · rcases hl : currentRes.list with _ | ⟨e, rest⟩
      · simp [fetchAirQuality, hc, hf, hl, hst]
      · by_cases hp : 0 < forecastRes.list.length
        · simp [fetchAirQuality, hc, hf, hl, hp, List.length_take]
        · simp [fetchAirQuality, hc, hf, hl, hp, hst]

/-- C5: on a successful fetch whose forecast payload has at least 24
entries, exactly the first 24 entries are stored, in provider order, and
the stored forecast never exceeds 24 points. -/
theorem fetchAirQuality_forecast_take24 (st : AppState)
    (currentRes forecastRes : AirResponse)
    (hok : ¬ fetchFails currentRes forecastRes)
    (hlen : 24 ≤ forecastRes.list.length) :
    (fetchAirQuality st currentRes forecastRes).forecastData
      = forecastRes.list.take 24 ∧
    (fetchAirQuality st currentRes forecastRes).forecastData.length = 24 ∧
    ∀ st2 c2 f2, st2.forecastData.length ≤ 24 →
      (fetchAirQuality st2 c2 f2).forecastData.length ≤ 24 := by
  simp only [fetchFails, not_or] at hok
  obtain ⟨h1, h2, h3⟩ := hok
  simp only [Bool.not_eq_false] at h1 h2
  have hpos : 0 < forecastRes.list.length := by omega
  rcases hl : currentRes.list with _ | ⟨e, rest⟩
  · exact absurd hl h3
  · refine ⟨?_, ?_, fun st2 c2 f2 hst => fetchAirQuality_forecast_le_24 st2 c2 f2 hst⟩
    · simp [fetchAirQuality, h1, h2, hl, hpos]
    · simp [fetchAirQuality, h1, h2, hl, hpos, List.length_take]
      omega

/-- Witness for C5: a 25-entry forecast payload is truncated to its
first 24 entries. -/
theorem fetchAirQuality_forecast_take24_witness :
    (fetchAirQuality ⟨0, ⟨0, 0, 0, 0, 0, 0⟩, [], none, none⟩
        ⟨true, [⟨0, 2, 1, 1, 1, 1, 1, 1⟩]⟩
        ⟨true, List.replicate 25 ⟨0, 1, 0, 0, 0, 0, 0, 0⟩⟩).forecastData
      = (List.replicate 25 (⟨0, 1, 0, 0, 0, 0, 0, 0⟩ : AirEntry)).take 24 :=
  (fetchAirQuality_forecast_take24 _ _ _ (by simp [fetchFails]) (by simp)).1

/-- Counterexample to C6 as stated for every reading: on the all-zero
reading every ratio ties at the maximum 0, so the first-encountered rule
would pick PM2_5, but the code returns null because the running maximum
starts at 0 and is only beaten strictly. -/
theorem getDominantPollutant_zero_tie_counterexample :
    getDominantPollutant (some ⟨0, 0, 0, 0, 0, 0⟩) = none ∧
    (∀ k, ratioOf ⟨0, 0, 0, 0, 0, 0⟩ k
        ≤ ratioOf ⟨0, 0, 0, 0, 0, 0⟩ PollutantKey.PM2_5) ∧
    keyPos PollutantKey.PM2_5 = 0 ∧
    getDominantPollutant (some ⟨0, 0, 0, 0, 0, 0⟩)
      ≠ some PollutantKey.PM2_5 := by
  have hnone : getDominantPollutant (some ⟨0, 0, 0, 0, 0, 0⟩) = none := by
    norm_num [getDominantPollutant, pollutantEntries, List.foldl, ratioOf,
      pollutantValue, guideline]
  refine ⟨hnone, ?_, rfl, by simp [hnone]⟩
  intro k
  cases k <;> norm_num [ratioOf, pollutantValue, guideline]

set_option maxHeartbeats 1000000 in
/-- C6 (amended): for every reading in which some pollutant has a
strictly positive concentration-to-guideline ratio, getDominantPollutant
returns the pollutant whose ratio is largest, and on ties the
first-encountered pollutant in the enumeration order PM2_5, PM10, NO2,
SO2, O3, CO is kept. -/
theorem getDominantPollutant_argmax_first (p : Pollutants)
    (h : ∃ k, 0 < ratioOf p k) :
    ∃ k, getDominantPollutant (some p) = some k ∧
      (∀ j, ratioOf p j ≤ ratioOf p k) ∧
      (∀ j, ratioOf p j = ratioOf p k → keyPos k ≤ keyPos j) := by
  simp only [getDominantPollutant, pollutantEntries, List.foldl]
  split_ifs <;>
  (try dsimp only at *) <;>
  first
  | (exfalso
     obtain ⟨k, hk⟩ := h
     cases k <;> linarith)
  | (refine ⟨_, rfl, fun j => ?_, fun j hj => ?_⟩ <;>
     cases j <;> (try simp only [keyPos]) <;> first | omega | linarith)

/-- Witness for C6 at the reading {PM2_5:30, PM10:20, NO2:10, SO2:5,
O3:50, CO:2000}: the dominant pollutant is PM2_5 (ratio 2.0). -/
theorem getDominantPollutant_argmax_first_witness :
    (∃ k, getDominantPollutant (some ⟨30, 20, 10, 5, 50, 2000⟩) = some k ∧
      (∀ j, ratioOf ⟨30, 20, 10, 5, 50, 2000⟩ j
          ≤ ratioOf ⟨30, 20, 10, 5, 50, 2000⟩ k) ∧
      (∀ j, ratioOf ⟨30, 20, 10, 5, 50, 2000⟩ j
          = ratioOf ⟨30, 20, 10, 5, 50, 2000⟩ k → keyPos k ≤ keyPos j)) ∧
    getDominantPollutant (some ⟨30, 20, 10, 5, 50, 2000⟩)
      = some PollutantKey.PM2_5 :=
  ⟨getDominantPollutant_argmax_first ⟨30, 20, 10, 5, 50, 2000⟩
      ⟨PollutantKey.PM2_5, by norm_num [ratioOf, pollutantValue, guideline]⟩,
   by norm_num [getDominantPollutant, pollutantEntries, List.foldl, ratioOf,
      pollutantValue, guideline]⟩

set_option maxHeartbeats 1000000 in
/-- C10: getDominantPollutant returns null exactly when no pollutant has
a strictly positive concentration-to-guideline ratio, because the
running maximum starts at 0 and is only replaced on a strictly greater
ratio. -/
theorem getDominantPollutant_none_iff (p : Pollutants) :
    getDominantPollutant (some p) = none ↔ ∀ k, ratioOf p k ≤ 0 := by
  simp only [getDominantPollutant, pollutantEntries, List.foldl]
  split_ifs <;> (try dsimp only at *) <;> constructor <;>
  first
  | (intro hx; exact hx.elim)
  | (intro hall; exfalso
     linarith [hall PollutantKey.PM2_5, hall PollutantKey.PM10,
       hall PollutantKey.NO2, hall PollutantKey.SO2,
       hall PollutantKey.O3, hall PollutantKey.CO])
  | (intro hx k; cases k <;> linarith)
  | (intro hall; rfl)

/-- Digits are not trimmed: a digit character is not whitespace. -/
theorem jsWhitespaceChar_isDigit_false (c : Char) (h : c.isDigit = true) :
    jsWhitespaceChar c = false := by
  have h1 : c ≠ ' ' := by rintro rfl; exact absurd h (by decide)
  have h2 : c ≠ '\t' := by rintro rfl; exact absurd h (by decide)
  have h3 : c ≠ '\n' := by rintro rfl; exact absurd h (by decide)
  have h4 : c ≠ '\r' := by rintro rfl; exact absurd h (by decide)
  have h5 : c ≠ Char.ofNat 11 := by rintro rfl; exact absurd h (by decide)
  have h6 : c ≠ Char.ofNat 12 := by rintro rfl; exact absurd h (by decide)
  simp [jsWhitespaceChar, h1, h2, h3, h4, h5, h6]

/-- An all-digit string is unchanged by trim. -/
theorem jsTrim_eq_self_of_digits (s : String)
    (h : s.toList.all Char.isDigit = true) : jsTrim s = s := by
  rw [List.all_eq_true] at h
  have hmem : ∀ c ∈ s.toList, jsWhitespaceChar c = false := fun c hc =>
    jsWhitespaceChar_isDigit_false c (h c hc)
  have h1 : s.toList.dropWhile jsWhitespaceChar = s.toList := by
    rw [List.dropWhile_eq_self_iff]
    intro hl
    have hx := hmem _ (List.get_mem s.toList 0 hl)
    simpa using hx
  have h2 : (s.toList.reverse).dropWhile jsWhitespaceChar
      = s.toList.reverse := by
    rw [List.dropWhile_eq_self_iff]
    intro hl
    have hm : (s.toList.reverse.get ⟨0, hl⟩) ∈ s.toList := by
      have hg := List.get_mem s.toList.reverse 0 hl
      rwa [List.mem_reverse] at hg
    have hx := hmem _ hm
    simpa using hx
  unfold jsTrim
  rw [h1, h2, List.reverse_reverse]
  rfl

/-- Helper: once the query passes the early guards, the first request
issued is the zip request for /^\d{5}$/ queries and the free-text
request otherwise, whatever the responses hold. -/
theorem searchLocation_first_request (query : String)
    (primary lenient : GeoResponse) (st : SearchState)
    (h1 : jsTrim query ≠ "")
    (h2 : ¬(query.length < 3 ∧ isAllDigits query = false)) :
    (searchLocation query primary lenient st).2.head?
      = some (if isFiveDigitZip query then SearchRequest.zip query
              else SearchRequest.direct query 10) := by
  unfold searchLocation
  rw [if_neg h1, if_neg h2]
  by_cases hnr : noResultsResp primary = true
  · by_cases hz2 : isFiveDigitZip query = false ∧ 3 ≤ query.length
    · simp only [hnr, if_true, if_pos hz2]
      split_ifs <;> simp [hz2.1]
    · simp only [hnr, if_true, if_neg hz2]
      simp
  · rcases hp : primary.payload with items | item <;> simp [hp, hnr]

/-- C7 (amended): aside from queries that are blank after trimming
(which return untouched), searchLocation routes every 5-digit numeric
query to the postal-code endpoint first, every other query of length at
least 3 to the free-text endpoint with limit 10, and clears the result
set without any network call for the remaining short non-numeric
queries. -/
theorem searchLocation_routing (query : String)
    (primary lenient : GeoResponse) (st : SearchState) :
    (isFiveDigitZip query = true →
      (searchLocation query primary lenient st).2.head?
        = some (SearchRequest.zip query)) ∧
    (jsTrim query ≠ "" → isFiveDigitZip query = false → 3 ≤ query.length →
      (searchLocation query primary lenient st).2.head?
        = some (SearchRequest.direct query 10)) ∧
    (jsTrim query ≠ "" → query.length < 3 → isAllDigits query = false →
      searchLocation query primary lenient st
        = ({ st with searchResults := [] }, [])) := by
  refine ⟨?_, ?_, ?_⟩
  · intro hz
    have hz' := hz
    simp only [isFiveDigitZip, Bool.and_eq_true, beq_iff_eq] at hz'
    obtain ⟨hlen5, hdig⟩ := hz'
    have htr : jsTrim query = query := jsTrim_eq_self_of_digits query hdig
    have hne : jsTrim query ≠ "" := by
      rw [htr]
      intro hcon
      rw [hcon] at hlen5
      simp at hlen5
    have hc2 : ¬(query.length < 3 ∧ isAllDigits query = false) := by
      rintro ⟨hl, _⟩
      omega
    rw [searchLocation_first_request query primary lenient st hne hc2,
      if_pos hz]
  · intro hne hz h3
    have hc2 : ¬(query.length < 3 ∧ isAllDigits query = false) := by
      rintro ⟨hl, _⟩
      omega
    rw [searchLocation_first_request query primary lenient st hne hc2]
    simp [hz]
  · intro hne hlt hdig
    unfold searchLocation
    rw [if_neg hne, if_pos ⟨hlt, hdig⟩]

/-- Witness for C7: "10001" routes to the zip endpoint, "Par" to the
free-text endpoint, and "Pa" clears the results with no request. -/
theorem searchLocation_routing_witness :
    (searchLocation "10001"
        ⟨200, GeoPayload.obj ⟨"New York", "", "US", 1, 2⟩⟩
        ⟨200, GeoPayload.arr []⟩ ⟨[], ""⟩).2.head?
      = some (SearchRequest.zip "10001") ∧
    (searchLocation "Par"
        ⟨200, GeoPayload.arr [⟨"Paris", "", "FR", 1, 2⟩]⟩
        ⟨200, GeoPayload.arr []⟩ ⟨[], ""⟩).2.head?
      = some (SearchRequest.direct "Par" 10) ∧
    searchLocation "Pa" ⟨200, GeoPayload.arr []⟩ ⟨200, GeoPayload.arr []⟩
        ⟨[], ""⟩
      = (⟨[], ""⟩, []) :=
  ⟨(searchLocation_routing "10001" _ _ _).1 (by decide),
   (searchLocation_routing "Par" _ _ _).2.1 (by decide) (by decide) (by decide),
   (searchLocation_routing "Pa" _ _ _).2.2 (by decide) (by decide) (by decide)⟩

/-- Counterexample to C7 as stated for every non-numeric query shorter
than 3 characters: the two-space query "  " is such a query, but because
it trims to empty the function returns without touching the result set,
instead of setting it to empty. -/
theorem searchLocation_blank_query_counterexample :
    isAllDigits "  " = false ∧ ("  ").length < 3 ∧
    searchLocation "  " ⟨200, GeoPayload.arr []⟩ ⟨200, GeoPayload.arr []⟩
        ⟨[⟨"Paris", "", "FR", 1, 2⟩], ""⟩
      = (⟨[⟨"Paris", "", "FR", 1, 2⟩], ""⟩, []) ∧
    [(⟨"Paris", "", "FR", 1, 2⟩ : SearchResult)] ≠ [] := by
  refine ⟨rfl, by decide, rfl, by decide⟩

/-- C8 (amended): for every query that is nonempty after trimming, has
length at least 3 and is not a 5-digit postal code, if its lookup
returns no results (404 or empty array) then searchLocation retries
exactly once with the last character stripped, accepts the relaxed
results only after filtering them to those whose name contains the
original query case-insensitively, and shows the inline
"No locations found" error with an empty result set when the filtered
set is empty. -/
theorem searchLocation_lenient_retry (query : String)
    (primary lenient : GeoResponse) (st : SearchState)
    (h1 : jsTrim query ≠ "") (hz : isFiveDigitZip query = false)
    (h3 : 3 ≤ query.length) (hnr : noResultsResp primary = true) :
    (searchLocation query primary lenient st).2
      = [SearchRequest.direct query 10,
         SearchRequest.direct (jsDropLastChar query) 10] ∧
    (0 < ((payloadItems lenient.payload).filter
        (fun item => nameMatches item query)).length →
      searchLocation query primary lenient st
        = ({ st with
              searchError := "",
              searchResults := ((payloadItems lenient.payload).filter
                (fun item => nameMatches item query)).map itemToResult },
           [SearchRequest.direct query 10,
            SearchRequest.direct (jsDropLastChar query) 10])) ∧
    (((payloadItems lenient.payload).filter
        (fun item => nameMatches item query)).length = 0 →
      searchLocation query primary lenient st
        = ({ st with searchError := noLocationsMsg, searchResults := [] },
           [SearchRequest.direct query 10,
            SearchRequest.direct (jsDropLastChar query) 10])) := by
  have hc2 : ¬(query.length < 3 ∧ isAllDigits query = false) := by
    rintro ⟨hl, _⟩
    omega
  unfold searchLocation
  rw [if_neg h1, if_neg hc2]
  simp only [hnr, if_true, hz, Bool.false_eq_true, if_false,
    eq_self_iff_true, true_and]
  rw [if_pos h3]
  by_cases ha : 0 < (payloadItems lenient.payload).length
  · rw [if_pos ha]
    by_cases hb : 0 < ((payloadItems lenient.payload).filter
        (fun item => nameMatches item query)).length
    · rw [if_pos hb]
      exact ⟨rfl, fun _ => rfl, fun h0 => absurd hb (by omega)⟩
    · rw [if_neg hb]
      exact ⟨rfl, fun hpos => absurd hpos hb, fun _ => rfl⟩
  · rw [if_neg ha]
    have hfe : ((payloadItems lenient.payload).filter
        (fun item => nameMatches item query)).length = 0 := by
      have hle := List.length_filter_le
        (fun item => nameMatches item query) (payloadItems lenient.payload)
      omega
    exact ⟨rfl, fun hpos => absurd hpos (by omega), fun _ => rfl⟩

/-- Witness for C8: query "Par" with an empty primary result and a
relaxed result "Paris" retries with "Pa" and accepts "Paris" after the
case-insensitive filter. -/
theorem searchLocation_lenient_retry_witness :
    jsDropLastChar "Par" = "Pa" ∧
    (searchLocation "Par" ⟨200, GeoPayload.arr []⟩
        ⟨200, GeoPayload.arr [⟨"Paris", "", "FR", 1, 2⟩]⟩ ⟨[], ""⟩).2
      = [SearchRequest.direct "Par" 10,
         SearchRequest.direct (jsDropLastChar "Par") 10] ∧
    searchLocation "Par" ⟨200, GeoPayload.arr []⟩
        ⟨200, GeoPayload.arr [⟨"Paris", "", "FR", 1, 2⟩]⟩ ⟨[], ""⟩
      = (⟨[⟨"Paris", "", "FR", 1, 2⟩], ""⟩,
         [SearchRequest.direct "Par" 10,
          SearchRequest.direct (jsDropLastChar "Par") 10]) :=
  ⟨rfl,
   (searchLocation_lenient_retry "Par" ⟨200, GeoPayload.arr []⟩
      ⟨200, GeoPayload.arr [⟨"Paris", "", "FR", 1, 2⟩]⟩ ⟨[], ""⟩
      (by decide) (by decide) (by decide) (by decide)).1,
   by exact (searchLocation_lenient_retry "Par" ⟨200, GeoPayload.arr []⟩
      ⟨200, GeoPayload.arr [⟨"Paris", "", "FR", 1, 2⟩]⟩ ⟨[], ""⟩
      (by decide) (by decide) (by decide) (by decide)).2.1 (by decide)⟩

/-- Counterexample to C8 as stated for every non-postal-code query: the
query "12" is numeric but not a 5-digit postal code; its lookup returns
no results, yet no relaxed retry is issued (only one request goes out)
and the inline error is shown even though a relaxed result whose name
contains "12" exists. -/
theorem searchLocation_short_numeric_counterexample :
    isFiveDigitZip "12" = false ∧
    noResultsResp ⟨200, GeoPayload.arr []⟩ = true ∧
    nameMatches ⟨"12 Mile Creek", "", "US", 1, 2⟩ "12" = true ∧
    searchLocation "12" ⟨200, GeoPayload.arr []⟩
        ⟨200, GeoPayload.arr [⟨"12 Mile Creek", "", "US", 1, 2⟩]⟩ ⟨[], ""⟩
      = (⟨[], noLocationsMsg⟩, [SearchRequest.direct "12" 10]) := by
  refine ⟨rfl, rfl, by decide, rfl⟩

end AirQualityMonitor
